import Mathlib

/-!
Verification of `src/normalization_script.py`: a one-shot migration that
normalizes the denormalized MySQL table `company_raw` into dimension,
junction and child-record tables, then drops the source columns.

The script is a fixed list of 38 SQL statements (`queries`) executed in
order by `run_migration`, with `connection.commit()` after each statement
and no error handling.  We embed the database state, the statement list
and the execution loop as executable Lean definitions, translated from
the SQL text of the source.
-/

namespace GP02

/-- MySQL `TRIM(s)`: strips leading and trailing space characters
(U+0020 only). -/
def sqlTrim (s : String) : String :=
  String.mk (((s.data.dropWhile (fun c => c = ' ')).reverse.dropWhile
    (fun c => c = ' ')).reverse)

/-- SQL three-valued equality used in join `ON` conditions, restricted to
its effective boolean value: `NULL = x` is `NULL`, which a join treats as
not-true, hence `false` here. -/
def optEq (a b : Option String) : Bool :=
  match a, b with
  | some x, some y => x == y
  | _, _ => false

/-- `CASE WHEN TRIM(is_hq) IN ('true', '1') THEN TRUE ELSE FALSE END`
(a `NULL` input falls to the `ELSE FALSE` branch). -/
def isHqTrue (o : Option String) : Bool :=
  match o.map sqlTrim with
  | some s => decide (s = "true" ∨ s = "1")
  | none => false

/-- MySQL `LPAD(s, 2, '0')`: left-pad to two characters, truncating to
two characters when the input is longer. -/
def lpad2 (s : String) : String :=
  if s.length < 2 then String.mk (List.replicate (2 - s.length) '0') ++ s
  else s.take 2

/-- One entry of the `locations` JSON array, as exposed by the
`JSON_TABLE` column clause (each path may be absent, giving SQL NULL). -/
structure JsonLocation where
  country : Option String
  city : Option String
  postal_code : Option String
  line_1 : Option String
  is_hq : Option String
  state : Option String
deriving DecidableEq

/-- One entry of the `updates` JSON array as exposed by `JSON_TABLE`. -/
structure JsonUpdate where
  article_link : Option String
  image : Option String
  day : Option Int
  month : Option Int
  year : Option Int
  text : Option String
  total_likes : Option Int
deriving DecidableEq

/-- One entry of the `affiliated_companies` or `similar_companies` JSON
arrays; both `JSON_TABLE` column clauses are identical in the source. -/
structure JsonCompanyEntry where
  name : Option String
  link : Option String
  industry : Option String
  location : Option String
deriving DecidableEq

/-- A row of `company_raw` carrying the nested attribute payloads the
migration reads.  `company_id` is the surrogate key auto-assigned when
statement 2 adds the column; it is stored here up front but no statement
references it before that column exists in `companyRawCols`. -/
structure CompanyRow where
  company_id : Nat
  company_type : Option String
  industry : Option String
  specialities : Option (List (Option String))
  company_size : Option (Option Int × Option Int)
  locations : Option (List JsonLocation)
  updates : Option (List JsonUpdate)
  affiliated_companies : Option (List JsonCompanyEntry)
  similar_companies : Option (List JsonCompanyEntry)
deriving DecidableEq

/-- The value columns of a `locations` dimension row (all nullable except
`is_hq`, which the insert always computes to a boolean). -/
structure LocVals where
  country : Option String
  city : Option String
  postal_code : Option String
  address_line1 : Option String
  is_hq : Bool
  state : Option String
deriving DecidableEq

/-- A `company_updates` child row.  `posted_on` holds the
`%Y-%m-%d` string built by the `CONCAT`/`LPAD` expression that
`STR_TO_DATE` parses. -/
structure UpdateRow where
  update_id : Nat
  company_id : Nat
  article_link : String
  image : String
  posted_on : String
  update_text : String
  total_likes : Int
deriving DecidableEq

/-- An `affiliated_companies` child row.  `location` is an `Option` so
that the final `DROP COLUMN location` can clear it. -/
structure AffRow where
  affiliated_companies_id : Nat
  company_id : Nat
  name : String
  linkedin_url : String
  industry : String
  location : Option String
deriving DecidableEq

/-- The value columns of a `similar_companies` dimension row; `location`
is an `Option` so that the final `DROP COLUMN location` can clear it. -/
structure SimVals where
  name : String
  linkedin_url : String
  industry : String
  location : Option String
deriving DecidableEq

/-- The visible database state: the column list of `company_raw`, the set
of created derived tables, the source rows, and the contents of every
derived table.  Dimension tables are (auto-increment id, value) lists. -/
structure DBState where
  companyRawCols : List String
  tables : List String
  company_raw : List CompanyRow
  specialty : List (Nat × String)
  company_specialty : List (Nat × Nat)
  type : List (Nat × String)
  company_type : List (Nat × Nat)
  industry : List (Nat × String)
  industry_type : List (Nat × Nat)
  ranges : List (Nat × String)
  company_range : List (Nat × Nat)
  locations : List (Nat × LocVals)
  company_location : List (Nat × Nat)
  company_updates : List UpdateRow
  affiliated_companies : List AffRow
  affiliatedCols : List String
  similar_companies : List (Nat × SimVals)
  similar_companies_junction : List (Nat × Nat)
  similarCols : List String
deriving DecidableEq

/-- Next auto-increment identifier of a table of (id, value) rows:
one more than the largest id present, starting from 1 on an empty
table. -/
def nextDimId (tbl : List (Nat × α)) : Nat :=
  tbl.foldr (fun p m => max p.1 m) 0 + 1

/-- Next auto-increment identifier given the list of ids in use. -/
def nextIdOf (ids : List Nat) : Nat :=
  ids.foldr max 0 + 1

/-! ### Statement 9.1: specialty dimension and company_specialty junction -/

/-- The specialty values one `company_raw` row contributes to the
`INSERT INTO specialty` select: the `JSON_TABLE` expansion of
`specialities`, with `WHERE cr.specialities IS NOT NULL AND
TRIM(jt.specialty) <> ''` and the selected value `TRIM(jt.specialty)`.
A JSON null entry yields SQL NULL, which the `<> ''` test excludes. -/
def trimmedSpecialties (r : CompanyRow) : List String :=
  match r.specialities with
  | none => []
  | some es => es.filterMap (fun e =>
      match e with
      | none => none
      | some s => if sqlTrim s = "" then none else some (sqlTrim s))

/-- `INSERT INTO specialty (specialty_name) SELECT DISTINCT ...`.
The table `specialty` has no uniqueness constraint on `specialty_name`,
so the `ON DUPLICATE KEY UPDATE` clause can only ever fire on the
auto-increment primary key, which fresh inserts never collide with:
every selected row is appended. -/
def execInsertSpecialty (db : DBState) : DBState :=
  let vals := (db.company_raw.bind trimmedSpecialties).dedup
  { db with specialty := db.specialty ++ List.enumFrom (nextDimId db.specialty) vals }

/-- The candidate rows of `INSERT INTO company_specialty`: one pair per
payload entry per matching `specialty` row, joined on
`s.specialty_name = TRIM(jt.specialty)`. -/
def companySpecialtyPairs (rows : List CompanyRow)
    (spec : List (Nat × String)) : List (Nat × Nat) :=
  rows.bind (fun r => (trimmedSpecialties r).bind (fun t =>
    (spec.filter (fun p => p.2 == t)).map (fun p => (r.company_id, p.1))))

/-- Insertion under a uniqueness key with `ON DUPLICATE KEY UPDATE`
set to a no-op: each candidate pair is appended unless an equal pair is
already present (either pre-existing or earlier in the same insert). -/
def upsertPairs (tbl new : List (Nat × Nat)) : List (Nat × Nat) :=
  new.foldl (fun acc p => if p ∈ acc then acc else acc ++ [p]) tbl

/-- `INSERT INTO company_specialty ... ON DUPLICATE KEY UPDATE ...`,
keyed by `UNIQUE (company_id, specialty_name_id)`. -/
def execInsertCompanySpecialty (db : DBState) : DBState :=
  let pairs := companySpecialtyPairs db.company_raw db.specialty
  { db with company_specialty := upsertPairs db.company_specialty pairs }

/-! ### Statements 9.2 and 9.3: type and industry (scalar columns) -/

/-- The trimmed `company_type` value of a row, `none` when the column is
NULL or blank after trimming (`WHERE company_type IS NOT NULL AND
TRIM(company_type) <> ''`). -/
def trimmedCompanyType (r : CompanyRow) : Option String :=
  match r.company_type with
  | none => none
  | some s => if sqlTrim s = "" then none else some (sqlTrim s)

/-- The trimmed `industry` value of a row, filtered like
`trimmedCompanyType`. -/
def trimmedIndustry (r : CompanyRow) : Option String :=
  match r.industry with
  | none => none
  | some s => if sqlTrim s = "" then none else some (sqlTrim s)

/-- `INSERT INTO type (company_type_name) SELECT DISTINCT ...`; as with
`specialty`, no unique key exists on the name column, so every selected
row is appended. -/
def execInsertType (db : DBState) : DBState :=
  let vals := (db.company_raw.filterMap trimmedCompanyType).dedup
  { db with type := db.type ++ List.enumFrom (nextDimId db.type) vals }

/-- `INSERT INTO company_type ... JOIN type t ON t.company_type_name =
TRIM(cr.company_type) ... ON DUPLICATE KEY UPDATE`, keyed by
`UNIQUE (company_id, company_type_id)`. -/
def execInsertCompanyType (db : DBState) : DBState :=
  let pairs := db.company_raw.bind (fun r =>
    match trimmedCompanyType r with
    | none => []
    | some t => (db.type.filter (fun p => p.2 == t)).map
        (fun p => (r.company_id, p.1)))
  { db with company_type := upsertPairs db.company_type pairs }

/-- `INSERT INTO industry (industry_name) SELECT DISTINCT ...`. -/
def execInsertIndustry (db : DBState) : DBState :=
  let vals := (db.company_raw.filterMap trimmedIndustry).dedup
  { db with industry := db.industry ++ List.enumFrom (nextDimId db.industry) vals }

/-- `INSERT INTO industry_type ... ON DUPLICATE KEY UPDATE`, keyed by
`UNIQUE (company_id, industry_id)`. -/
def execInsertIndustryType (db : DBState) : DBState :=
  let pairs := db.company_raw.bind (fun r =>
    match trimmedIndustry r with
    | none => []
    | some t => (db.industry.filter (fun p => p.2 == t)).map
        (fun p => (r.company_id, p.1)))
  { db with industry_type := upsertPairs db.industry_type pairs }

/-! ### Statement 9.4: ranges dimension and company_range junction -/

/-- The `CASE` expression mapping a raw `(low, high)` pair from the
`company_size` JSON value to the enumerated bucket label, `NULL`
(`none`) when no branch matches. -/
def rangeBucket (low high : Option Int) : Option String :=
  if low = some 0 ∧ high = some 1 then some "0-1"
  else if low = some 2 ∧ high = some 10 then some "2-10"
  else if low = some 11 ∧ high = some 50 then some "11-50"
  else if low = some 51 ∧ high = some 200 then some "51-200"
  else if low = some 201 ∧ high = some 500 then some "201-500"
  else if low = some 501 ∧ high = some 1000 then some "501-1000"
  else if low = some 1001 ∧ high = some 5000 then some "1001-5000"
  else if low = some 5001 ∧ high = some 10000 then some "5001-10000"
  else if low = some 10001 ∧ high = none then some "10001+"
  else none

/-- The `WHERE` filter of both size statements: `jt.low IS NOT NULL`
conjoined with the disjunction of the nine enumerated bucket tests
(the surrounding `cr.company_size IS NOT NULL` is handled where the
payload is unpacked). -/
def rangeWhere (low high : Option Int) : Prop :=
  low ≠ none ∧
    ((low = some 0 ∧ high = some 1) ∨
     (low = some 2 ∧ high = some 10) ∨
     (low = some 11 ∧ high = some 50) ∨
     (low = some 51 ∧ high = some 200) ∨
     (low = some 201 ∧ high = some 500) ∨
     (low = some 501 ∧ high = some 1000) ∨
     (low = some 1001 ∧ high = some 5000) ∨
     (low = some 5001 ∧ high = some 10000) ∨
     (low = some 10001 ∧ high = none))

instance (low high : Option Int) : Decidable (rangeWhere low high) := by
  unfold rangeWhere
  exact inferInstance

/-- The bucket labels one row contributes to `INSERT INTO ranges`:
the single `(low, high)` pair read by `JSON_TABLE` from `company_size`,
passed through the `WHERE` filter and the `CASE` projection.  Under the
filter the `CASE` never yields `NULL`, so the empty fallback branch is
dead code kept only for totality. -/
def rangeValues (r : CompanyRow) : List String :=
  match r.company_size with
  | none => []
  | some (lo, hi) =>
      if rangeWhere lo hi then
        match rangeBucket lo hi with
        | some lbl => [lbl]
        | none => []
      else []

/-- `INSERT INTO ranges (range_parameter) SELECT DISTINCT ...`
(no uniqueness key on `range_parameter`, plain append). -/
def execInsertRanges (db : DBState) : DBState :=
  let vals := (db.company_raw.bind rangeValues).dedup
  { db with ranges := db.ranges ++ List.enumFrom (nextDimId db.ranges) vals }

/-- The candidate pairs of `INSERT INTO company_range`: the join of the
filtered size pairs against `ranges` on `r.range_parameter = CASE ...`. -/
def companyRangePairs (rows : List CompanyRow)
    (rtbl : List (Nat × String)) : List (Nat × Nat) :=
  rows.bind (fun r =>
    match r.company_size with
    | none => []
    | some (lo, hi) =>
        if rangeWhere lo hi then
          match rangeBucket lo hi with
          | some lbl => (rtbl.filter (fun p => p.2 == lbl)).map
              (fun p => (r.company_id, p.1))
          | none => []
        else [])

/-- `INSERT INTO company_range SELECT DISTINCT ...` (no
`ON DUPLICATE KEY UPDATE`; the select is deduplicated and appended). -/
def execInsertCompanyRange (db : DBState) : DBState :=
  let pairs := (companyRangePairs db.company_raw db.ranges).dedup
  { db with company_range := db.company_range ++ pairs }

/-! ### Statement 9.5: locations dimension and company_location junction -/

/-- The `WHERE TRIM(jt.country) <> ''` filter: a NULL country gives a
NULL comparison, which excludes the entry. -/
def locCountryOk (jt : JsonLocation) : Bool :=
  match jt.country with
  | some c => decide (sqlTrim c ≠ "")
  | none => false

/-- The projection of one `locations` payload entry onto the columns of
the `locations` dimension insert (TRIM on each string, the `CASE` on
`is_hq`). -/
def locProj (jt : JsonLocation) : LocVals where
  country := jt.country.map sqlTrim
  city := jt.city.map sqlTrim
  postal_code := jt.postal_code.map sqlTrim
  address_line1 := jt.line_1.map sqlTrim
  is_hq := isHqTrue jt.is_hq
  state := jt.state.map sqlTrim

/-- `INSERT INTO locations SELECT DISTINCT ...`: entries of every
non-NULL `locations` payload passing the country filter, projected and
deduplicated, then appended with fresh ids. -/
def execInsertLocations (db : DBState) : DBState :=
  let vals := (db.company_raw.bind (fun r =>
    match r.locations with
    | none => []
    | some es => (es.filter locCountryOk).map locProj)).dedup
  { db with locations := db.locations ++ List.enumFrom (nextDimId db.locations) vals }

/-- The six-way join condition of the `company_location` insert; every
comparison is SQL equality, so a NULL on either side makes the
conjunct not-true. -/
def locJoin (l : LocVals) (jt : JsonLocation) : Bool :=
  optEq l.country (jt.country.map sqlTrim) &&
  optEq l.city (jt.city.map sqlTrim) &&
  optEq l.postal_code (jt.postal_code.map sqlTrim) &&
  optEq l.address_line1 (jt.line_1.map sqlTrim) &&
  optEq l.state (jt.state.map sqlTrim) &&
  (l.is_hq == isHqTrue jt.is_hq)

/-- The candidate pairs of `INSERT INTO company_location`. -/
def companyLocationPairs (rows : List CompanyRow)
    (ltbl : List (Nat × LocVals)) : List (Nat × Nat) :=
  rows.bind (fun r =>
    match r.locations with
    | none => []
    | some es => (es.filter locCountryOk).bind (fun jt =>
        (ltbl.filter (fun p => locJoin p.2 jt)).map
          (fun p => (r.company_id, p.1))))

/-- `INSERT INTO company_location SELECT DISTINCT ...` (no
`ON DUPLICATE KEY UPDATE`; deduplicated and appended). -/
def execInsertCompanyLocation (db : DBState) : DBState :=
  let pairs := (companyLocationPairs db.company_raw db.locations).dedup
  { db with company_location := db.company_location ++ pairs }

/-! ### Statement 9.6: company_updates child records -/

/-- The `CONCAT(COALESCE(jt.year, 1900), '-', LPAD(COALESCE(jt.month,
1), 2, '0'), '-', LPAD(COALESCE(jt.day, 1), 2, '0'))` expression whose
result `STR_TO_DATE` parses with format `%Y-%m-%d`. -/
def postedOnStr (jt : JsonUpdate) : String :=
  toString (jt.year.getD 1900) ++ "-" ++
    lpad2 (toString (jt.month.getD 1)) ++ "-" ++
    lpad2 (toString (jt.day.getD 1))

/-- One `company_updates` child row built from a payload entry, with the
`COALESCE` defaults of the insert select list. -/
def updateRowOf (uid cid : Nat) (jt : JsonUpdate) : UpdateRow where
  update_id := uid
  company_id := cid
  article_link := jt.article_link.getD "No Link Provided"
  image := jt.image.getD ""
  posted_on := postedOnStr jt
  update_text := jt.text.getD ""
  total_likes := jt.total_likes.getD 0

/-- `INSERT INTO company_updates ...`: one row per entry of every
non-NULL `updates` payload, no deduplication and no trimming. -/
def execInsertCompanyUpdates (db : DBState) : DBState :=
  let entries := db.company_raw.bind (fun r =>
    match r.updates with
    | none => []
    | some es => es.map (fun jt => (r.company_id, jt)))
  let base := nextIdOf (db.company_updates.map (fun u => u.update_id))
  let newRows := (List.enumFrom base entries).map
    (fun p => updateRowOf p.1 p.2.1 p.2.2)
  { db with company_updates := db.company_updates ++ newRows }

/-! ### Statement 9.7: affiliated_companies child records -/

/-- One `affiliated_companies` child row: the select applies `COALESCE`
defaults for NULL fields but performs no `TRIM` and has no identity
filter. -/
def affRowOf (aid cid : Nat) (jt : JsonCompanyEntry) : AffRow where
  affiliated_companies_id := aid
  company_id := cid
  name := jt.name.getD "No Name Provided"
  linkedin_url := jt.link.getD "No Link Provided"
  industry := jt.industry.getD "No Industry Provided"
  location := some (jt.location.getD "No Location Provided")

/-- `INSERT INTO affiliated_companies ...`: one row per entry of every
non-NULL `affiliated_companies` payload, untrimmed and unfiltered. -/
def execInsertAffiliatedCompanies (db : DBState) : DBState :=
  let entries := db.company_raw.bind (fun r =>
    match r.affiliated_companies with
    | none => []
    | some es => es.map (fun jt => (r.company_id, jt)))
  let base := nextIdOf (db.affiliated_companies.map
    (fun a => a.affiliated_companies_id))
  let newRows := (List.enumFrom base entries).map
    (fun p => affRowOf p.1 p.2.1 p.2.2)
  { db with affiliated_companies := db.affiliated_companies ++ newRows }

/-! ### Statement 9.8: similar_companies dimension and junction -/

/-- The `WHERE TRIM(jt.name) <> ''` filter of both similar-company
statements (NULL name excluded). -/
def simNameOk (jt : JsonCompanyEntry) : Bool :=
  match jt.name with
  | some s => decide (sqlTrim s ≠ "")
  | none => false

/-- The projection of one `similar_companies` payload entry onto the
columns of the dimension insert: `COALESCE(TRIM(field), default)`. -/
def simValsOf (jt : JsonCompanyEntry) : SimVals where
  name := (jt.name.map sqlTrim).getD "No Name Provided"
  linkedin_url := (jt.link.map sqlTrim).getD "No Link Provided"
  industry := (jt.industry.map sqlTrim).getD "No Industry Provided"
  location := some ((jt.location.map sqlTrim).getD "No Location Provided")

/-- `INSERT INTO similar_companies SELECT DISTINCT ...`. -/
def execInsertSimilarCompanies (db : DBState) : DBState :=
  let vals := (db.company_raw.bind (fun r =>
    match r.similar_companies with
    | none => []
    | some es => (es.filter simNameOk).map simValsOf)).dedup
  { db with similar_companies := db.similar_companies ++ List.enumFrom (nextDimId db.similar_companies) vals }

/-- The four-way join of the `similar_companies_junction` insert on the
coalesced trimmed fields. -/
def simJoin (sc : SimVals) (jt : JsonCompanyEntry) : Bool :=
  (sc.name == (jt.name.map sqlTrim).getD "No Name Provided") &&
  (sc.linkedin_url == (jt.link.map sqlTrim).getD "No Link Provided") &&
  (sc.industry == (jt.industry.map sqlTrim).getD "No Industry Provided") &&
  (sc.location == some ((jt.location.map sqlTrim).getD "No Location Provided"))

/-- The candidate pairs of `INSERT INTO similar_companies_junction`. -/
def similarJunctionPairs (rows : List CompanyRow)
    (stbl : List (Nat × SimVals)) : List (Nat × Nat) :=
  rows.bind (fun r =>
    match r.similar_companies with
    | none => []
    | some es => (es.filter simNameOk).bind (fun jt =>
        (stbl.filter (fun p => simJoin p.2 jt)).map
          (fun p => (r.company_id, p.1))))

/-- `INSERT INTO similar_companies_junction SELECT DISTINCT ...` (no
`ON DUPLICATE KEY UPDATE`; deduplicated and appended). -/
def execInsertSimilarCompaniesJunction (db : DBState) : DBState :=
  let pairs := (similarJunctionPairs db.company_raw db.similar_companies).dedup
  { db with similar_companies_junction := db.similar_companies_junction ++ pairs }

/-! ### The statement list and the execution loop -/

/-- The kinds of SQL statement appearing in the `queries` list of the
source, one constructor per distinct statement shape. -/
inductive Stmt where
  | alterDropRawColumns (cols : List String)
  | alterAddCompanyId
  | createTableIfNotExists (name : String)
  | insertSpecialty
  | insertCompanySpecialty
  | insertType
  | insertCompanyType
  | insertIndustry
  | insertIndustryType
  | insertRanges
  | insertCompanyRange
  | insertLocations
  | insertCompanyLocation
  | insertCompanyUpdates
  | insertAffiliatedCompanies
  | insertSimilarCompanies
  | insertSimilarCompaniesJunction
  | alterDropAffiliatedLocation
  | alterDropSimilarLocation
deriving DecidableEq

/-- The `company_raw` columns (including `company_id`) whose data a
statement reads. -/
def readsRawCols : Stmt → List String
  | .insertSpecialty => ["specialities"]
  | .insertCompanySpecialty => ["company_id", "specialities"]
  | .insertType => ["company_type"]
  | .insertCompanyType => ["company_id", "company_type"]
  | .insertIndustry => ["industry"]
  | .insertIndustryType => ["company_id", "industry"]
  | .insertRanges => ["company_size"]
  | .insertCompanyRange => ["company_id", "company_size"]
  | .insertLocations => ["locations"]
  | .insertCompanyLocation => ["company_id", "locations"]
  | .insertCompanyUpdates => ["company_id", "updates"]
  | .insertAffiliatedCompanies => ["company_id", "affiliated_companies"]
  | .insertSimilarCompanies => ["similar_companies"]
  | .insertSimilarCompaniesJunction => ["company_id", "similar_companies"]
  | _ => []

/-- The `company_raw` columns a statement drops. -/
def dropsRawCols : Stmt → List String
  | .alterDropRawColumns cols => cols
  | _ => []

/-- The derived tables a statement requires to exist. -/
def neededTables : Stmt → List String
  | .insertSpecialty => ["specialty"]
  | .insertCompanySpecialty => ["company_specialty", "specialty"]
  | .insertType => ["type"]
  | .insertCompanyType => ["company_type", "type"]
  | .insertIndustry => ["industry"]
  | .insertIndustryType => ["industry_type", "industry"]
  | .insertRanges => ["ranges"]
  | .insertCompanyRange => ["company_range", "ranges"]
  | .insertLocations => ["locations"]
  | .insertCompanyLocation => ["company_location", "locations"]
  | .insertCompanyUpdates => ["company_updates"]
  | .insertAffiliatedCompanies => ["affiliated_companies"]
  | .insertSimilarCompanies => ["similar_companies"]
  | .insertSimilarCompaniesJunction =>
      ["similar_companies_junction", "similar_companies"]
  | _ => []

/-- Executes one statement against the state, or fails the way the
store would: dropping a missing column, re-adding `company_id`, or
referencing a missing column or table is an error; `CREATE TABLE IF NOT
EXISTS` of an existing table is a no-op. -/
def execStmt (db : DBState) (s : Stmt) : Except String DBState :=
  match s with
  | .alterDropRawColumns cols =>
      if cols.all (fun c => c ∈ db.companyRawCols) then
        Except.ok { db with companyRawCols :=
          db.companyRawCols.filter (fun c => ¬ c ∈ cols) }
      else Except.error "cannot drop missing column"
  | .alterAddCompanyId =>
      if "company_id" ∈ db.companyRawCols then
        Except.error "duplicate column name company_id"
      else Except.ok { db with companyRawCols := "company_id" :: db.companyRawCols }
  | .createTableIfNotExists n =>
      Except.ok (if n ∈ db.tables then db
        else { db with tables := n :: db.tables })
  | .alterDropAffiliatedLocation =>
      if "location" ∈ db.affiliatedCols then
        Except.ok { db with
          affiliatedCols := db.affiliatedCols.filter (fun c => c ≠ "location"),
          affiliated_companies := db.affiliated_companies.map
            (fun a => { a with location := none }) }
      else Except.error "cannot drop missing column"
  | .alterDropSimilarLocation =>
      if "location" ∈ db.similarCols then
        Except.ok { db with
          similarCols := db.similarCols.filter (fun c => c ≠ "location"),
          similar_companies := db.similar_companies.map
            (fun p => (p.1, { p.2 with location := none })) }
      else Except.error "cannot drop missing column"
  | s =>
      if (readsRawCols s).all (fun c => c ∈ db.companyRawCols) ∧
         (neededTables s).all (fun t => t ∈ db.tables) then
        Except.ok (match s with
          | .insertSpecialty => execInsertSpecialty db
          | .insertCompanySpecialty => execInsertCompanySpecialty db
          | .insertType => execInsertType db
          | .insertCompanyType => execInsertCompanyType db
          | .insertIndustry => execInsertIndustry db
          | .insertIndustryType => execInsertIndustryType db
          | .insertRanges => execInsertRanges db
          | .insertCompanyRange => execInsertCompanyRange db
          | .insertLocations => execInsertLocations db
          | .insertCompanyLocation => execInsertCompanyLocation db
          | .insertCompanyUpdates => execInsertCompanyUpdates db
          | .insertAffiliatedCompanies => execInsertAffiliatedCompanies db
          | .insertSimilarCompanies => execInsertSimilarCompanies db
          | .insertSimilarCompaniesJunction =>
              execInsertSimilarCompaniesJunction db
          | _ => db)
      else Except.error "missing column or table"

/-- The `queries` list of the source, in source order (38 statements). -/
def queries : List Stmt := [
  .alterDropRawColumns ["exit_data", "acquisitions", "extra",
    "funding_data", "categories", "customer_list"],
  .alterAddCompanyId,
  .createTableIfNotExists "specialty",
  .createTableIfNotExists "company_specialty",
  .createTableIfNotExists "type",
  .createTableIfNotExists "company_type",
  .createTableIfNotExists "industry",
  .createTableIfNotExists "industry_type",
  .createTableIfNotExists "ranges",
  .createTableIfNotExists "company_range",
  .createTableIfNotExists "locations",
  .createTableIfNotExists "company_location",
  .createTableIfNotExists "company_updates",
  .createTableIfNotExists "affiliated_companies",
  .createTableIfNotExists "similar_companies",
  .createTableIfNotExists "similar_companies_junction",
  .insertSpecialty,
  .insertCompanySpecialty,
  .insertType,
  .insertCompanyType,
  .insertIndustry,
  .insertIndustryType,
  .insertRanges,
  .insertCompanyRange,
  .insertLocations,
  .insertCompanyLocation,
  .insertCompanyUpdates,
  .insertAffiliatedCompanies,
  .insertSimilarCompanies,
  .insertSimilarCompaniesJunction,
  .alterDropRawColumns ["industry"],
  .alterDropRawColumns ["hq"],
  .alterDropRawColumns ["company_type"],
  .alterDropRawColumns ["specialities"],
  .alterDropRawColumns ["locations"],
  .alterDropRawColumns ["similar_companies"],
  .alterDropRawColumns ["affiliated_companies"],
  .alterDropRawColumns ["updates"],
  .alterDropAffiliatedLocation,
  .alterDropSimilarLocation]

/-- What the execution loop of `run_migration` produces: the final
state, the number of `connection.commit()` calls, the number of
`connection.rollback()` calls, the printed log lines, and the 1-based
index of the query whose `cursor.execute` raised, if any. -/
structure RunOutcome where
  db : DBState
  commits : Nat
  rollbacks : Nat
  log : List String
  failedAt : Option Nat
deriving DecidableEq

/-- The loop body of `run_migration`: print, execute, commit; an
execute error propagates as an uncaught exception, so the loop stops
with no further commit, no rollback and no failure log line. -/
def runLoop : DBState → Nat → List Stmt → Nat → Nat → List String → RunOutcome
  | db, _, [], commits, rollbacks, log =>
      ⟨db, commits, rollbacks,
        log ++ ["All queries executed successfully!"], none⟩
  | db, i, q :: rest, commits, rollbacks, log =>
      let log2 := log ++ ["Executing query #" ++ toString i ++ "..."]
      match execStmt db q with
      | Except.error _ => ⟨db, commits, rollbacks, log2, some i⟩
      | Except.ok db2 => runLoop db2 (i + 1) rest (commits + 1) rollbacks log2

/-- Runs the 38 queries from the first, as the `for` loop of
`run_migration` does (`enumerate(queries, start=1)`). -/
def runQueries (db : DBState) : RunOutcome :=
  runLoop db 1 queries 0 0 []

/-- The result of folding a statement prefix, committing each success
and stopping at the first error; used to state which statements a
failed run has applied. -/
def applyOk (db : DBState) : List Stmt → DBState
  | [] => db
  | q :: rest =>
      match execStmt db q with
      | Except.ok db2 => applyOk db2 rest
      | Except.error _ => db

/-- The pre-migration `company_raw` state: the payload columns named by
the source (including the six unneeded ones and `hq`), no derived
tables, and the given rows. -/
def initState (rows : List CompanyRow) : DBState where
  companyRawCols := ["exit_data", "acquisitions", "extra", "funding_data",
    "categories", "customer_list", "company_type", "industry", "hq",
    "specialities", "company_size", "locations", "updates",
    "affiliated_companies", "similar_companies"]
  tables := []
  company_raw := rows
  specialty := []
  company_specialty := []
  type := []
  company_type := []
  industry := []
  industry_type := []
  ranges := []
  company_range := []
  locations := []
  company_location := []
  company_updates := []
  affiliated_companies := []
  affiliatedCols := ["affiliated_companies_id", "company_id", "name",
    "linkedin_url", "industry", "location"]
  similar_companies := []
  similar_companies_junction := []
  similarCols := ["similar_companies_id", "name", "linkedin_url",
    "industry", "location"]

/-- One full migration run over a pre-migration database. -/
def migrate (rows : List CompanyRow) : RunOutcome :=
  runQueries (initState rows)

/-- The connection call `mysql.connector.connect(host="localhost",
user="root", password=db_password, database="gp_02")`. -/
structure ConnectCall where
  host : String
  user : String
  password : Option String
  database : String
deriving DecidableEq

/-- What one invocation of the script performs: exactly one connection
attempt, then (if the store accepted the connection) the query loop. -/
structure MigrationRun where
  connect : ConnectCall
  outcome : Option RunOutcome
deriving DecidableEq

/-- `os.getenv`: the value of the first binding of the key, if any. -/
def getenv (env : List (String × String)) (k : String) : Option String :=
  (env.find? (fun p => p.1 == k)).map (fun p => p.2)

/-- The body of `run_migration`: read `PASSWROD` from the environment
(with no check of any kind), pass whatever came back straight to the
connector, and run the query loop.  `connOk` stands for the external
store accepting the connection; the script itself never inspects the
credentials. -/
def run_migration (env : List (String × String)) (db : DBState)
    (connOk : Bool) : MigrationRun :=
  let db_password := getenv env "PASSWROD"
  let call : ConnectCall :=
    ⟨"localhost", "root", db_password, "gp_02"⟩
  { connect := call,
    outcome := if connOk then some (runQueries db) else none }

/-! ### The final state of one successful run, table by table -/

/-- The `specialty` table a full run leaves behind. -/
def specialtyFinal (rows : List CompanyRow) : List (Nat × String) :=
  List.enumFrom 1 ((rows.bind trimmedSpecialties).dedup)

/-- The `company_specialty` table a full run leaves behind. -/
def companySpecialtyFinal (rows : List CompanyRow) : List (Nat × Nat) :=
  upsertPairs [] (companySpecialtyPairs rows (specialtyFinal rows))

/-- The `type` table a full run leaves behind. -/
def typeFinal (rows : List CompanyRow) : List (Nat × String) :=
  List.enumFrom 1 ((rows.filterMap trimmedCompanyType).dedup)

/-- The `company_type` table a full run leaves behind. -/
def companyTypeFinal (rows : List CompanyRow) : List (Nat × Nat) :=
  upsertPairs [] (rows.bind (fun r =>
    match trimmedCompanyType r with
    | none => []
    | some t => ((typeFinal rows).filter (fun p => p.2 == t)).map
        (fun p => (r.company_id, p.1))))

/-- The `industry` table a full run leaves behind. -/
def industryFinal (rows : List CompanyRow) : List (Nat × String) :=
  List.enumFrom 1 ((rows.filterMap trimmedIndustry).dedup)

/-- The `industry_type` table a full run leaves behind. -/
def industryTypeFinal (rows : List CompanyRow) : List (Nat × Nat) :=
  upsertPairs [] (rows.bind (fun r =>
    match trimmedIndustry r with
    | none => []
    | some t => ((industryFinal rows).filter (fun p => p.2 == t)).map
        (fun p => (r.company_id, p.1))))

/-- The `ranges` table a full run leaves behind. -/
def rangesFinal (rows : List CompanyRow) : List (Nat × String) :=
  List.enumFrom 1 ((rows.bind rangeValues).dedup)

/-- The `company_range` table a full run leaves behind. -/
def companyRangeFinal (rows : List CompanyRow) : List (Nat × Nat) :=
  (companyRangePairs rows (rangesFinal rows)).dedup

/-- The location dimension values a full run extracts, in select
order before deduplication. -/
def locationValsOf (rows : List CompanyRow) : List LocVals :=
  rows.bind (fun r =>
    match r.locations with
    | none => []
    | some es => (es.filter locCountryOk).map locProj)

/-- The `locations` table a full run leaves behind. -/
def locationsFinal (rows : List CompanyRow) : List (Nat × LocVals) :=
  List.enumFrom 1 (locationValsOf rows).dedup

/-- The `company_location` table a full run leaves behind. -/
def companyLocationFinal (rows : List CompanyRow) : List (Nat × Nat) :=
  (companyLocationPairs rows (locationsFinal rows)).dedup

/-- The `company_updates` table a full run leaves behind. -/
def companyUpdatesFinal (rows : List CompanyRow) : List UpdateRow :=
  (List.enumFrom 1 (rows.bind (fun r =>
    match r.updates with
    | none => []
    | some es => es.map (fun jt => (r.company_id, jt))))).map
      (fun p => updateRowOf p.1 p.2.1 p.2.2)

/-- The `affiliated_companies` table a full run leaves behind: the
inserted child rows, with `location` cleared by the final
`DROP COLUMN location`. -/
def affiliatedFinal (rows : List CompanyRow) : List AffRow :=
  ((List.enumFrom 1 (rows.bind (fun r =>
    match r.affiliated_companies with
    | none => []
    | some es => es.map (fun jt => (r.company_id, jt))))).map
      (fun p => affRowOf p.1 p.2.1 p.2.2)).map
        (fun a => { a with location := none })

/-- The similar-company dimension values a full run extracts, in
select order before deduplication. -/
def similarValsOf (rows : List CompanyRow) : List SimVals :=
  rows.bind (fun r =>
    match r.similar_companies with
    | none => []
    | some es => (es.filter simNameOk).map simValsOf)

/-- The `similar_companies` table as the junction insert sees it,
before the final column drop. -/
def similarPreDrop (rows : List CompanyRow) : List (Nat × SimVals) :=
  List.enumFrom 1 (similarValsOf rows).dedup

/-- The `similar_companies` table a full run leaves behind, with
`location` cleared by the final `DROP COLUMN location`. -/
def similarFinal (rows : List CompanyRow) : List (Nat × SimVals) :=
  (similarPreDrop rows).map (fun p => (p.1, { p.2 with location := none }))

/-- The `similar_companies_junction` table a full run leaves behind
(computed against the pre-drop dimension rows). -/
def similarJunctionFinal (rows : List CompanyRow) : List (Nat × Nat) :=
  (similarJunctionPairs rows (similarPreDrop rows)).dedup

/-- The complete database state after one successful run over a
pre-migration database. -/
def finalDB (rows : List CompanyRow) : DBState where
  companyRawCols := ["company_id", "company_size"]
  tables := ["similar_companies_junction", "similar_companies",
    "affiliated_companies", "company_updates", "company_location",
    "locations", "company_range", "ranges", "industry_type", "industry",
    "company_type", "type", "company_specialty", "specialty"]
  company_raw := rows
  specialty := specialtyFinal rows
  company_specialty := companySpecialtyFinal rows
  type := typeFinal rows
  company_type := companyTypeFinal rows
  industry := industryFinal rows
  industry_type := industryTypeFinal rows
  ranges := rangesFinal rows
  company_range := companyRangeFinal rows
  locations := locationsFinal rows
  company_location := companyLocationFinal rows
  company_updates := companyUpdatesFinal rows
  affiliated_companies := affiliatedFinal rows
  affiliatedCols := ["affiliated_companies_id", "company_id", "name",
    "linkedin_url", "industry"]
  similar_companies := similarFinal rows
  similar_companies_junction := similarJunctionFinal rows
  similarCols := ["similar_companies_id", "name", "linkedin_url",
    "industry"]

/-- The log a successful run prints: one line per query, then the
success line. -/
def successLog : List String := [
    "Executing query #1...",
    "Executing query #2...",
    "Executing query #3...",
    "Executing query #4...",
    "Executing query #5...",
    "Executing query #6...",
    "Executing query #7...",
    "Executing query #8...",
    "Executing query #9...",
    "Executing query #10...",
    "Executing query #11...",
    "Executing query #12...",
    "Executing query #13...",
    "Executing query #14...",
    "Executing query #15...",
    "Executing query #16...",
    "Executing query #17...",
    "Executing query #18...",
    "Executing query #19...",
    "Executing query #20...",
    "Executing query #21...",
    "Executing query #22...",
    "Executing query #23...",
    "Executing query #24...",
    "Executing query #25...",
    "Executing query #26...",
    "Executing query #27...",
    "Executing query #28...",
    "Executing query #29...",
    "Executing query #30...",
    "Executing query #31...",
    "Executing query #32...",
    "Executing query #33...",
    "Executing query #34...",
    "Executing query #35...",
    "Executing query #36...",
    "Executing query #37...",
    "Executing query #38...",
    "Executing query #39...",
    "Executing query #40...",
    "All queries executed successfully!"]

/-! ### Concrete sample data for witnesses and counterexamples -/

/-- A location payload entry with every sub-field present. -/
def loc1 : JsonLocation where
  country := some "USA"
  city := some "NYC"
  postal_code := some "10001"
  line_1 := some "5th Ave"
  is_hq := some "true"
  state := some "NY"

/-- An update payload entry with no `posted_on` sub-fields. -/
def upd1 : JsonUpdate where
  article_link := none
  image := none
  day := none
  month := none
  year := none
  text := some "hi"
  total_likes := none

/-- An affiliated-company payload entry with only a name. -/
def aff1 : JsonCompanyEntry where
  name := some "AffCo"
  link := none
  industry := none
  location := none

/-- A similar-company payload entry with only a name. -/
def sim1 : JsonCompanyEntry where
  name := some "SimCo"
  link := none
  industry := none
  location := none

/-- A first sample owning record with every payload populated; its
size pair (11, 50) matches the "11-50" bucket. -/
def row1 : CompanyRow where
  company_id := 1
  company_type := some "Public"
  industry := some "Software"
  specialities := some [some "Tech", some " Cloud "]
  company_size := some (some 11, some 50)
  locations := some [loc1]
  updates := some [upd1]
  affiliated_companies := some [aff1]
  similar_companies := some [sim1]

/-- A second sample owning record sharing the specialty "Tech" (spelt
with trailing blanks) with `row1`; its size pair (7, 9) matches no
bucket. -/
def row2 : CompanyRow where
  company_id := 2
  company_type := none
  industry := none
  specialities := some [some "Tech  "]
  company_size := some (some 7, some 9)
  locations := none
  updates := none
  affiliated_companies := none
  similar_companies := none

/-- The sample pre-migration table contents. -/
def sampleRows : List CompanyRow := [row1, row2]

/-- An affiliated-company payload entry whose name is blank (two
spaces). -/
def affBlank : JsonCompanyEntry where
  name := some "  "
  link := none
  industry := none
  location := none

/-- An owning record whose only payload is one blank-named affiliated
company. -/
def rowAffBlank : CompanyRow where
  company_id := 1
  company_type := none
  industry := none
  specialities := none
  company_size := none
  locations := none
  updates := none
  affiliated_companies := some [affBlank]
  similar_companies := none

/-- An owning record whose only payload is one specialty. -/
def rowSpec (s : String) : CompanyRow where
  company_id := 1
  company_type := none
  industry := none
  specialities := some [some s]
  company_size := none
  locations := none
  updates := none
  affiliated_companies := none
  similar_companies := none

/-- A location payload entry with a country but a NULL city. -/
def locNullCity : JsonLocation where
  country := some "USA"
  city := none
  postal_code := some "10001"
  line_1 := some "5th Ave"
  is_hq := none
  state := some "NY"

/-- An owning record whose only payload is one location with a NULL
city sub-field. -/
def rowLocNullCity : CompanyRow where
  company_id := 1
  company_type := none
  industry := none
  specialities := none
  company_size := none
  locations := some [locNullCity]
  updates := none
  affiliated_companies := none
  similar_companies := none

/-- An owning record whose only payload is one update entry. -/
def rowUpd (jt : JsonUpdate) : CompanyRow where
  company_id := 1
  company_type := none
  industry := none
  specialities := none
  company_size := none
  locations := none
  updates := some [jt]
  affiliated_companies := none
  similar_companies := none

/-- An update payload entry carrying only `year = 2020`. -/
def updYearOnly : JsonUpdate where
  article_link := none
  image := none
  day := none
  month := none
  year := some 2020
  text := none
  total_likes := none

/-- An owning record whose only payload is one company-size pair. -/
def rowSize (lo hi : Option Int) : CompanyRow where
  company_id := 1
  company_type := none
  industry := none
  specialities := none
  company_size := some (lo, hi)
  locations := none
  updates := none
  affiliated_companies := none
  similar_companies := none

/-! ### Helper lemmas -/

/-- Master evaluation lemma: one run over any pre-migration database
succeeds, commits once per statement, never rolls back, prints the
per-query log, and produces exactly the tables described by
`finalDB`. -/
theorem migrate_eq (rows : List CompanyRow) :
    migrate rows = ⟨finalDB rows, 40, 0, successLog, none⟩ := by
  simp [migrate, runQueries, queries, runLoop, execStmt, initState,
    readsRawCols, neededTables, nextDimId, nextIdOf,
    execInsertSpecialty, execInsertCompanySpecialty, execInsertType,
    execInsertCompanyType, execInsertIndustry, execInsertIndustryType,
    execInsertRanges, execInsertCompanyRange, execInsertLocations,
    execInsertCompanyLocation, execInsertCompanyUpdates,
    execInsertAffiliatedCompanies, execInsertSimilarCompanies,
    execInsertSimilarCompaniesJunction, finalDB, successLog,
    specialtyFinal, companySpecialtyFinal, typeFinal, companyTypeFinal,
    industryFinal, industryTypeFinal, rangesFinal, companyRangeFinal,
    locationValsOf, locationsFinal, companyLocationFinal,
    companyUpdatesFinal, affiliatedFinal, similarValsOf, similarPreDrop,
    similarFinal, similarJunctionFinal]
  decide

/-- If the `CASE` expression yields `NULL`, the `WHERE` filter of the
size statements rejects the pair: the nine disjuncts of the filter are
exactly the nine branch guards of the `CASE`. -/
theorem not_rangeWhere_of_bucket_none {lo hi : Option Int}
    (h : rangeBucket lo hi = none) : ¬ rangeWhere lo hi := by
  intro hw
  rcases hw with ⟨-, hcases⟩
  unfold rangeBucket at h
  rcases hcases with h1 | h1 | h1 | h1 | h1 | h1 | h1 | h1 | h1 <;>
    simp [h1.1, h1.2] at h

/-- The loop never calls `connection.rollback()`: no branch of
`runLoop` touches the rollback counter. -/
theorem runLoop_rollbacks (qs : List Stmt) (db : DBState) (i c r : Nat)
    (log : List String) : (runLoop db i qs c r log).rollbacks = r := by
  induction qs generalizing db i c log with
  | nil => rfl
  | cons q rest ih =>
      simp only [runLoop]
      cases hq : execStmt db q with
      | error e => rfl
      | ok db2 => exact ih db2 (i + 1) (c + 1) _

/-- A loop run with no failure commits once per statement. -/
theorem runLoop_commits_of_none (qs : List Stmt) (db : DBState)
    (i c r : Nat) (log : List String)
    (h : (runLoop db i qs c r log).failedAt = none) :
    (runLoop db i qs c r log).commits = c + qs.length := by
  induction qs generalizing db i c log with
  | nil => rfl
  | cons q rest ih =>
      simp only [runLoop] at h ⊢
      cases hq : execStmt db q with
      | error e => simp [hq] at h
      | ok db2 =>
          simp only [hq] at h ⊢
          have := ih db2 (i + 1) (c + 1) _ h
          rw [this]
          simp
          omega

/-- A loop run that fails at query `k` has executed and committed
exactly the statements before `k`, and its last printed line is the
pre-execution line of query `k` (there is no failure report). -/
theorem runLoop_failed (qs : List Stmt) (db : DBState) (i c r : Nat)
    (log : List String) (k : Nat)
    (h : (runLoop db i qs c r log).failedAt = some k) :
    i ≤ k ∧
    (runLoop db i qs c r log).commits = c + (k - i) ∧
    (runLoop db i qs c r log).db = applyOk db (qs.take (k - i)) ∧
    (runLoop db i qs c r log).log.getLast? =
      some ("Executing query #" ++ toString k ++ "...") := by
  induction qs generalizing db i c log with
  | nil => simp [runLoop] at h
  | cons q rest ih =>
      simp only [runLoop] at h ⊢
      cases hq : execStmt db q with
      | error e =>
          simp only [hq] at h ⊢
          have hik : k = i := by
            simpa using h.symm
          subst hik
          refine ⟨le_refl k, by simp, ?_, by simp⟩
          simp [applyOk]
      | ok db2 =>
          simp only [hq] at h ⊢
          obtain ⟨h1, h2, h3, h4⟩ := ih db2 (i + 1) (c + 1) _ h
          have hik : i ≤ k := by omega
          refine ⟨hik, ?_, ?_, h4⟩
          · rw [h2]; omega
          · rw [h3]
            have hsub : k - i = (k - (i + 1)) + 1 := by omega
            rw [hsub]
            simp [applyOk, hq]

/-- Filtering an id-value enumeration by value counts the occurrences
of the value in the underlying list. -/
theorem enumFrom_filter_snd (l : List String) (n : Nat) (a : String) :
    ((List.enumFrom n l).filter (fun p => p.2 == a)).length = l.count a := by
  induction l generalizing n with
  | nil => rfl
  | cons x xs ih =>
      by_cases hx : x = a
      · subst hx
        simp [List.enumFrom, List.filter_cons, List.count_cons, ih]
      · simp [List.enumFrom, List.filter_cons, List.count_cons, ih, hx]

/-- In an enumeration the identifier determines the value. -/
theorem enumFrom_snd_unique (l : List String) (n i : Nat) (a b : String)
    (ha : (i, a) ∈ List.enumFrom n l) (hb : (i, b) ∈ List.enumFrom n l) :
    a = b := by
  rw [List.mk_mem_enumFrom_iff_le_and_getElem?_sub] at ha hb
  have h := ha.2.symm.trans hb.2
  simpa using h

/-- A pair is in an upsert result exactly when it was present before
or is among the candidates. -/
theorem mem_upsertPairs (tbl new : List (Nat × Nat)) (x : Nat × Nat) :
    x ∈ upsertPairs tbl new ↔ x ∈ tbl ∨ x ∈ new := by
  induction new generalizing tbl with
  | nil => simp [upsertPairs]
  | cons p ps ih =>
      show x ∈ upsertPairs (if p ∈ tbl then tbl else tbl ++ [p]) ps ↔ _
      by_cases hp : p ∈ tbl
      · rw [if_pos hp, ih]
        simp only [List.mem_cons]
        constructor
        · rintro (h | h)
          · exact Or.inl h
          · exact Or.inr (Or.inr h)
        · rintro (h | h | h)
          · exact Or.inl h
          · exact Or.inl (h ▸ hp)
          · exact Or.inr h
      · rw [if_neg hp, ih]
        simp only [List.mem_append, List.mem_singleton, List.mem_cons]
        tauto

/-- Upserting into a duplicate-free table preserves freedom from
duplicates: the uniqueness key admits each pair at most once. -/
theorem nodup_upsertPairs (tbl new : List (Nat × Nat)) (h : tbl.Nodup) :
    (upsertPairs tbl new).Nodup := by
  induction new generalizing tbl with
  | nil => exact h
  | cons p ps ih =>
      show (upsertPairs (if p ∈ tbl then tbl else tbl ++ [p]) ps).Nodup
      by_cases hp : p ∈ tbl
      · rw [if_pos hp]; exact ih tbl h
      · rw [if_neg hp]
        exact ih _ (by simp [List.nodup_append, h, hp])

/-! ### Claim theorems -/

/-- C6: range bucketing maps the pair (11, 50) to the label "11-50",
giving one Dimension Entry and one Junction Link; a pair on which the
`CASE` matches no enumerated bucket (such as (7, 9)) is excluded
entirely, producing no `ranges` row and no `company_range` row, with no
fallback bucket. -/
theorem range_bucketing (r : CompanyRow) (lo hi : Option Int) :
    rangeBucket (some 11) (some 50) = some "11-50" ∧
    rangeBucket (some 7) (some 9) = none ∧
    (r.company_size = some (lo, hi) → rangeBucket lo hi = none →
      (migrate [r]).db.ranges = [] ∧ (migrate [r]).db.company_range = []) ∧
    (r.company_size = some (some 11, some 50) →
      (migrate [r]).db.ranges = [(1, "11-50")] ∧
      (migrate [r]).db.company_range = [(r.company_id, 1)]) := by
  refine ⟨rfl, rfl, fun hsz hb => ?_, fun hsz => ?_⟩
  · rw [migrate_eq]
    have hw := not_rangeWhere_of_bucket_none hb
    simp [finalDB, rangesFinal, companyRangeFinal, companyRangePairs,
      rangeValues, hsz, hw]
  · rw [migrate_eq]
    simp [finalDB, rangesFinal, companyRangeFinal, companyRangePairs,
      rangeValues, hsz, rangeBucket, rangeWhere]

/-- C6 witness: the exclusion branch of `range_bucketing` evaluated at
the concrete pair (7, 9) and the positive branch at (11, 50). -/
theorem range_bucketing_witness :
    ((migrate [rowSize (some 7) (some 9)]).db.ranges = [] ∧
      (migrate [rowSize (some 7) (some 9)]).db.company_range = []) ∧
    ((migrate [rowSize (some 11) (some 50)]).db.ranges = [(1, "11-50")] ∧
      (migrate [rowSize (some 11) (some 50)]).db.company_range = [(1, 1)]) := by
  constructor
  · exact (range_bucketing (rowSize (some 7) (some 9)) (some 7)
      (some 9)).2.2.1 (by decide) (by decide)
  · exact (range_bucketing (rowSize (some 11) (some 50)) (some 11)
      (some 50)).2.2.2 (by decide)

/-- C8: an update entry with missing day, month and year sub-fields has
them replaced by the defaults 1, 1 and 1900, so its child row carries
posted_on 1900-01-01; with only year = 2020 present it carries
2020-01-01. -/
theorem update_date_defaults (r : CompanyRow) (jt : JsonUpdate) :
    (r.updates = some [jt] → jt.day = none → jt.month = none →
      jt.year = none →
      (migrate [r]).db.company_updates = [updateRowOf 1 r.company_id jt] ∧
      (updateRowOf 1 r.company_id jt).posted_on = "1900-01-01") ∧
    (r.updates = some [jt] → jt.day = none → jt.month = none →
      jt.year = some 2020 →
      (migrate [r]).db.company_updates = [updateRowOf 1 r.company_id jt] ∧
      (updateRowOf 1 r.company_id jt).posted_on = "2020-01-01") := by
  constructor
  · intro hu hd hm hy
    constructor
    · rw [migrate_eq]
      simp [finalDB, companyUpdatesFinal, hu]
    · show postedOnStr jt = "1900-01-01"
      simp only [postedOnStr, hd, hm, hy]
      decide
  · intro hu hd hm hy
    constructor
    · rw [migrate_eq]
      simp [finalDB, companyUpdatesFinal, hu]
    · show postedOnStr jt = "2020-01-01"
      simp only [postedOnStr, hd, hm, hy]
      decide

/-- C8 witness: `update_date_defaults` applied to the concrete entry
with no date sub-fields and to the one carrying only year = 2020. -/
theorem update_date_defaults_witness :
    ((migrate [rowUpd upd1]).db.company_updates =
      [updateRowOf 1 1 upd1] ∧
      (updateRowOf 1 1 upd1).posted_on = "1900-01-01") ∧
    ((migrate [rowUpd updYearOnly]).db.company_updates =
      [updateRowOf 1 1 updYearOnly] ∧
      (updateRowOf 1 1 updYearOnly).posted_on = "2020-01-01") := by
  constructor
  · exact (update_date_defaults (rowUpd upd1) upd1).1
      (by decide) (by decide) (by decide) (by decide)
  · exact (update_date_defaults (rowUpd updYearOnly) updYearOnly).2
      (by decide) (by decide) (by decide) (by decide)

/-- C9: a location payload entry with a non-blank country but a NULL
city, postal_code, line_1 or state sub-field yields a `locations`
dimension row, yet no `company_location` junction link, because the
junction join compares those columns with SQL equality, which is never
true against NULL. -/
theorem null_subfield_location (r : CompanyRow) (jt : JsonLocation) :
    r.locations = some [jt] → locCountryOk jt = true →
    (jt.city = none ∨ jt.postal_code = none ∨ jt.line_1 = none ∨
      jt.state = none) →
    (migrate [r]).db.locations = [(1, locProj jt)] ∧
    (migrate [r]).db.company_location = [] := by
  intro hloc hok hnull
  rw [migrate_eq]
  have hjoin : locJoin (locProj jt) jt = false := by
    rcases hnull with h | h | h | h <;>
      simp [locJoin, locProj, optEq, h]
  simp [finalDB, locationsFinal, locationValsOf, companyLocationFinal,
    companyLocationPairs, hloc, hok, hjoin]

/-- C9 witness: `null_subfield_location` at the concrete entry whose
city is NULL. -/
theorem null_subfield_location_witness :
    (migrate [rowLocNullCity]).db.locations = [(1, locProj locNullCity)] ∧
    (migrate [rowLocNullCity]).db.company_location = [] :=
  null_subfield_location rowLocNullCity locNullCity
    (by decide) (by decide) (by decide)

/-- C10: every full run succeeds and ends by dropping the `location`
column from both `affiliated_companies` and `similar_companies`, so the
location values extracted into those tables by the insert phases are
absent from the final state. -/
theorem location_column_dropped (rows : List CompanyRow) :
    (migrate rows).failedAt = none ∧
    ((migrate rows).db.affiliatedCols.contains "location") = false ∧
    ((migrate rows).db.similarCols.contains "location") = false ∧
    ((migrate rows).db.affiliated_companies.all
      (fun a => a.location == none)) = true ∧
    ((migrate rows).db.similar_companies.all
      (fun p => p.2.location == none)) = true := by
  rw [migrate_eq]
  refine ⟨rfl, rfl, rfl, ?_, ?_⟩
  · simp only [finalDB, affiliatedFinal]
    simp
    intro x i c jt hmem heq
    rw [heq.symm]
  · simp only [finalDB, similarFinal]
    simp

/-- C7 counterexample: an affiliated-company payload entry whose name
is the blank string "  " (empty after trimming) is NOT discarded — the
migration inserts a child record for it, storing the name untrimmed.
This refutes the claim that every payload entry is trimmed and that
blank-identity entries contribute no Child Record. -/
theorem blank_affiliated_name_inserted :
    (migrate [rowAffBlank]).db.affiliated_companies =
      [⟨1, 1, "  ", "No Link Provided", "No Industry Provided", none⟩] := by
  rw [migrate_eq]
  decide

/-- C7 amended: the specialty category (and likewise type, industry,
location and similar companies) trims its identity values and discards
entries blank after trimming, so a specialty "Acme  " is stored as
"Acme" and a whitespace-only specialty contributes neither a Dimension
Entry nor a Junction Link; the affiliated-companies category, however,
inserts every entry as a Child Record verbatim: no trimming, no
blank-name discard, only COALESCE placeholders for NULL fields. -/
theorem trim_discard_behavior (r1 r2 : CompanyRow) (s : String)
    (jt : JsonCompanyEntry) :
    (r1.specialities = some [some s] → sqlTrim s = "" →
      (migrate [r1]).db.specialty = [] ∧
      (migrate [r1]).db.company_specialty = []) ∧
    (r1.specialities = some [some s] → sqlTrim s ≠ "" →
      (migrate [r1]).db.specialty = [(1, sqlTrim s)]) ∧
    (r2.affiliated_companies = some [jt] →
      (migrate [r2]).db.affiliated_companies =
        [⟨1, r2.company_id, jt.name.getD "No Name Provided",
          jt.link.getD "No Link Provided",
          jt.industry.getD "No Industry Provided", none⟩]) := by
  refine ⟨fun hsp hblank => ?_, fun hsp hne => ?_, fun haff => ?_⟩
  · rw [migrate_eq]
    simp [finalDB, specialtyFinal, companySpecialtyFinal,
      companySpecialtyPairs, trimmedSpecialties, upsertPairs, hsp, hblank]
  · rw [migrate_eq]
    simp [finalDB, specialtyFinal, trimmedSpecialties, hsp, hne]
  · rw [migrate_eq]
    simp [finalDB, affiliatedFinal, affRowOf, haff]

/-- C7 witness: `trim_discard_behavior` evaluated at a whitespace-only
specialty, at the specialty "Acme  " (stored as "Acme"), and at the
blank-named affiliated entry (inserted verbatim). -/
theorem trim_discard_behavior_witness :
    ((migrate [rowSpec "  "]).db.specialty = [] ∧
      (migrate [rowSpec "  "]).db.company_specialty = []) ∧
    (migrate [rowSpec "Acme  "]).db.specialty = [(1, "Acme")] ∧
    (migrate [rowAffBlank]).db.affiliated_companies =
      [⟨1, 1, "  ", "No Link Provided", "No Industry Provided", none⟩] := by
  refine ⟨?_, ?_, ?_⟩
  · exact (trim_discard_behavior (rowSpec "  ") (rowSpec "  ") "  "
      affBlank).1 (by decide) (by decide)
  · have h := (trim_discard_behavior (rowSpec "Acme  ") (rowSpec "Acme  ")
      "Acme  " affBlank).2.1 (by decide) (by decide)
    rw [h]
    decide
  · exact (trim_discard_behavior rowAffBlank rowAffBlank "x"
      affBlank).2.2 (by decide)

/-- C5 counterexample: with an environment in which `PASSWROD` is not
set, the script performs no pre-flight credential check: it still
issues the `mysql.connector.connect` call (with a null password) and,
when the store accepts the connection, executes every statement.  This
refutes the claim that missing credentials fail fast with a
configuration error before any store interaction. -/
theorem missing_password_still_connects :
    (run_migration [] (initState sampleRows) true).connect =
      ⟨"localhost", "root", none, "gp_02"⟩ ∧
    (run_migration [] (initState sampleRows) true).outcome =
      some (migrate sampleRows) := by
  constructor
  · rfl
  · rfl

/-- C5 amended: when `PASSWROD` is absent from the environment the
script reads back `None` and passes it straight to the connector: the
connection attempt is always made, with password `None`, and if the
store accepts it the query loop runs; no configuration error exists
anywhere in the control flow. -/
theorem missing_password_behavior (env : List (String × String))
    (db : DBState) (ok : Bool) :
    getenv env "PASSWROD" = none →
    (run_migration env db ok).connect =
      ⟨"localhost", "root", none, "gp_02"⟩ ∧
    (run_migration env db ok).outcome =
      (if ok then some (runQueries db) else none) := by
  intro h
  constructor
  · simp [run_migration, h]
  · rfl

/-- C5 amended witness: `missing_password_behavior` at the empty
environment. -/
theorem missing_password_behavior_witness :
    (run_migration [] (initState sampleRows) false).connect =
      ⟨"localhost", "root", none, "gp_02"⟩ ∧
    (run_migration [] (initState sampleRows) false).outcome = none :=
  missing_password_behavior [] (initState sampleRows) false (by decide)

/-- C1 counterexample: a second invocation of the migration against the
database left by a successful first run is not a no-op producing
identical contents: its very first statement (dropping the already
dropped columns) raises a store error, so the second run aborts at
query 1 instead of completing. -/
theorem second_run_aborts :
    (migrate sampleRows).failedAt = none ∧
    (runQueries (migrate sampleRows).db).failedAt = some 1 := by
  rw [migrate_eq]
  constructor
  · rfl
  · decide

/-- C1 amended: the migration is not re-runnable as a whole.  The
first run over the sample database succeeds; the second invocation
fails at query 1 because the columns that statement drops no longer
exist, and it leaves every table unchanged (so no rows are duplicated,
but only because nothing executes).  The `CREATE TABLE IF NOT EXISTS`
statements taken alone are idempotent: against a state where the table
exists they return the state unchanged — yet the second run never
reaches them. -/
theorem second_run_fails_fast (db : DBState) (n : String) :
    (migrate sampleRows).failedAt = none ∧
    (runQueries (migrate sampleRows).db).failedAt = some 1 ∧
    (runQueries (migrate sampleRows).db).db = (migrate sampleRows).db ∧
    (n ∈ db.tables →
      execStmt db (Stmt.createTableIfNotExists n) = Except.ok db) := by
  rw [migrate_eq]
  refine ⟨rfl, by decide, by decide, fun h => ?_⟩
  simp [execStmt, h]

/-- C1 amended witness: `second_run_fails_fast` applied to the
post-run state and the `specialty` table, discharging the
table-existence hypothesis concretely. -/
theorem second_run_fails_fast_witness :
    execStmt (finalDB sampleRows) (Stmt.createTableIfNotExists "specialty") =
      Except.ok (finalDB sampleRows) :=
  (second_run_fails_fast (finalDB sampleRows) "specialty").2.2.2 (by decide)

/-- C2 counterexample: on a run whose first statement raises a store
error, the orchestrator performs zero `rollback()` calls and its log
holds only the pre-execution line — no rollback happens and no failure
report naming the failed phase is emitted; the exception simply
propagates.  This refutes the rollback-and-report part of the claim. -/
theorem failed_run_no_rollback_no_report :
    (runQueries (migrate sampleRows).db).failedAt = some 1 ∧
    (runQueries (migrate sampleRows).db).rollbacks = 0 ∧
    (runQueries (migrate sampleRows).db).log = ["Executing query #1..."] := by
  rw [migrate_eq]
  refine ⟨by decide, by decide, by decide⟩

/-- C2 amended: the loop commits exactly once per statement on
success; when the statement at index k raises, the loop stops: the
failing statement is not committed, the state is exactly the fold of
the k-1 committed statements (prior phases remain intact), no rollback
call is ever made, and the last log line is the pre-execution line of
query k rather than a failure report. -/
theorem phase_commit_behavior (db : DBState) (k : Nat) :
    (runQueries db).rollbacks = 0 ∧
    ((runQueries db).failedAt = none → (runQueries db).commits = 40) ∧
    ((runQueries db).failedAt = some k →
      (runQueries db).commits = k - 1 ∧
      (runQueries db).db = applyOk db (queries.take (k - 1)) ∧
      (runQueries db).log.getLast? =
        some ("Executing query #" ++ toString k ++ "...")) := by
  refine ⟨runLoop_rollbacks queries db 1 0 0 [], fun h => ?_, fun h => ?_⟩
  · exact runLoop_commits_of_none queries db 1 0 0 [] h
  · obtain ⟨h1, h2, h3, h4⟩ := runLoop_failed queries db 1 0 0 [] k h
    exact ⟨by rw [runQueries, h2]; omega, h3, h4⟩

/-- C2 amended witness: `phase_commit_behavior` applied to the state a
first run leaves behind, on which the next run fails at query 1 with
zero commits and the state equal to the empty fold. -/
theorem phase_commit_behavior_witness :
    (runQueries (finalDB sampleRows)).rollbacks = 0 ∧
    (runQueries (finalDB sampleRows)).commits = 0 ∧
    (runQueries (finalDB sampleRows)).db =
      applyOk (finalDB sampleRows) (queries.take 0) ∧
    (runQueries (finalDB sampleRows)).log.getLast? =
      some ("Executing query #" ++ toString 1 ++ "...") := by
  obtain ⟨h0, -, hsome⟩ := phase_commit_behavior (finalDB sampleRows) 1
  obtain ⟨hc, hdb, hl⟩ := hsome (by decide)
  exact ⟨h0, hc, hdb, hl⟩

/-- C4 counterexample: the column `hq` is dropped by the cleanup phase
although no insert statement ever reads it — its data is never
migrated into any derived table.  (The same holds for the six columns
dropped by statement 1.)  This refutes the claim that no column whose
data has not been migrated is ever dropped. -/
theorem hq_dropped_never_read :
    ((queries.bind dropsRawCols).contains "hq") = true ∧
    ((queries.bind readsRawCols).contains "hq") = false := by
  decide

/-- C4 amended: every statement dropping a `company_raw` column that
some insert statement reads comes strictly after all statements
reading that column, and a run that fails at query k applies only the
statements before k — so no drop ever executes after a prior phase has
failed.  The columns `exit_data`, `acquisitions`, `extra`,
`funding_data`, `categories`, `customer_list` and `hq` are, however,
dropped without any statement reading them. -/
theorem drop_after_extraction (db : DBState) (k : Nat) :
    (∀ i, i < 40 → ∀ j, j < 40 →
      ∀ c ∈ dropsRawCols (queries.getD i Stmt.insertSpecialty),
        c ∈ readsRawCols (queries.getD j Stmt.insertSpecialty) → j < i) ∧
    ((runQueries db).failedAt = some k →
      (runQueries db).db = applyOk db (queries.take (k - 1))) := by
  constructor
  · decide
  · intro h
    exact (runLoop_failed queries db 1 0 0 [] k h).2.2.1

/-- C4 amended witness: `drop_after_extraction` applied to the
post-run state, on which the next run fails at query 1 and applies the
empty statement prefix — in particular no drop statement. -/
theorem drop_after_extraction_witness :
    (runQueries (finalDB sampleRows)).db =
      applyOk (finalDB sampleRows) (queries.take 0) :=
  (drop_after_extraction (finalDB sampleRows) 1).2 (by decide)

/-- C3: when the same normalized (trimmed) specialty value appears in
the payloads of N distinct Owning Records, the migrated database holds
exactly one `specialty` Dimension Entry carrying that value, and the
`company_specialty` junction holds exactly N links referencing its
identifier. -/
theorem dedup_specialty (rows : List CompanyRow) (v : String)
    (hids : (rows.map (fun r => r.company_id)).Nodup)
    (hv : 0 < (rows.filter (fun r => (trimmedSpecialties r).contains v)).length) :
    ((migrate rows).db.specialty.filter (fun p => p.2 == v)).length = 1 ∧
    ∀ i, (i, v) ∈ (migrate rows).db.specialty →
      ((migrate rows).db.company_specialty.filter (fun p => p.2 == i)).length =
        (rows.filter (fun r => (trimmedSpecialties r).contains v)).length := by
  rw [migrate_eq]
  have hv2 : v ∈ rows.bind trimmedSpecialties := by
    obtain ⟨r, hr⟩ := List.exists_mem_of_length_pos hv
    rw [List.mem_filter] at hr
    exact List.mem_bind.mpr ⟨r, hr.1, by simpa using hr.2⟩
  constructor
  · show ((List.enumFrom 1 ((rows.bind trimmedSpecialties).dedup)).filter
      (fun p => p.2 == v)).length = 1
    rw [enumFrom_filter_snd, List.count_dedup, if_pos hv2]
  · intro i hi
    have hi2 : (i, v) ∈ List.enumFrom 1 ((rows.bind trimmedSpecialties).dedup) := hi
    show ((upsertPairs [] (companySpecialtyPairs rows (specialtyFinal rows))).filter
      (fun p => p.2 == i)).length =
      (rows.filter (fun r => (trimmedSpecialties r).contains v)).length
    set D := (rows.bind trimmedSpecialties).dedup with hD
    set S := List.enumFrom 1 D with hS
    set pairs := companySpecialtyPairs rows S with hpairsdef
    have hchar : ∀ c : Nat, (c, i) ∈ pairs ↔
        ∃ r ∈ rows, r.company_id = c ∧ v ∈ trimmedSpecialties r := by
      intro c
      rw [hpairsdef]
      unfold companySpecialtyPairs
      simp only [List.mem_bind, List.mem_map, List.mem_filter]
      constructor
      · rintro ⟨r, hr, t, ht, p, ⟨hpS, hpt⟩, heq⟩
        have h1 : r.company_id = c := (Prod.mk.injEq _ _ _ _ ▸ heq).1
        have h2 : p.1 = i := (Prod.mk.injEq _ _ _ _ ▸ heq).2
        have hpv : p.2 = v := by
          have hmem : ((i, p.2) : Nat × String) ∈ S := by
            rw [← h2]
            simpa using hpS
          exact enumFrom_snd_unique D 1 i p.2 v hmem hi2
        have htv : t = v := by
          have : p.2 = t := by simpa using hpt
          rw [← this, hpv]
        exact ⟨r, hr, h1, htv ▸ ht⟩
      · rintro ⟨r, hr, hc, hvr⟩
        refine ⟨r, hr, v, hvr, (i, v), ⟨hi2, by simp⟩, by rw [hc]⟩
    have hJnd : (upsertPairs [] pairs).Nodup :=
      nodup_upsertPairs [] pairs List.nodup_nil
    have hmemiff : ∀ x, x ∈ (upsertPairs [] pairs).filter (fun p => p.2 == i) ↔
        x ∈ (rows.filter (fun r => (trimmedSpecialties r).contains v)).map
          (fun r => (r.company_id, i)) := by
      rintro ⟨c, j⟩
      rw [List.mem_filter, mem_upsertPairs]
      simp only [List.not_mem_nil, false_or, List.mem_map, List.mem_filter]
      constructor
      · rintro ⟨hcj, hji⟩
        have hj : j = i := by simpa using hji
        subst hj
        obtain ⟨r, hr, hc, hvr⟩ := (hchar c).mp hcj
        exact ⟨r, ⟨hr, by simpa using hvr⟩, by rw [hc]⟩
      · rintro ⟨r, ⟨hr, hvr⟩, heq⟩
        have hc : r.company_id = c := (Prod.mk.injEq _ _ _ _ ▸ heq).1
        have hj : j = i := ((Prod.mk.injEq _ _ _ _ ▸ heq).2).symm
        subst hj
        exact ⟨(hchar c).mpr ⟨r, hr, hc, by simpa using hvr⟩, by simp⟩
    have hLnd : ((rows.filter (fun r => (trimmedSpecialties r).contains v)).map
        (fun r => (r.company_id, i))).Nodup := by
      have h1 : ((rows.filter (fun r => (trimmedSpecialties r).contains v)).map
          (fun r => r.company_id)).Nodup :=
        List.Nodup.sublist
          (List.Sublist.map _ (List.filter_sublist rows)) hids
      have h2 := List.Nodup.map
        (f := fun c : Nat => (c, i))
        (fun a b hab => (Prod.mk.injEq _ _ _ _ ▸ hab).1) h1
      rw [List.map_map] at h2
      exact h2
    have hperm := (List.perm_ext_iff_of_nodup
      (List.Nodup.filter _ hJnd) hLnd).mpr hmemiff
    have hlen := hperm.length_eq
    rw [List.length_map] at hlen
    exact hlen

/-- C3 witness: `dedup_specialty` on the sample rows, where "Tech"
(spelt once plainly and once with trailing blanks) appears in the
payloads of the two distinct owning records: one dimension row (id 2)
and two junction links. -/
theorem dedup_specialty_witness :
    ((migrate sampleRows).db.specialty.filter
      (fun p => p.2 == "Tech")).length = 1 ∧
    ((migrate sampleRows).db.company_specialty.filter
      (fun p => p.2 == 2)).length = 2 := by
  have h := dedup_specialty sampleRows "Tech" (by decide) (by decide)
  refine ⟨h.1, ?_⟩
  have h2 := h.2 2 (by rw [migrate_eq]; decide)
  rw [h2]
  decide

end GP02
